import Mathlib

/-!
Shallow embedding of the Editor.js Alert block plugin
(src/src/index.js) and verification of its specification claims.

The plugin is a single class `Alert` holding a two-field data record
`{ type, message }`, a handful of DOM-producing methods (`render`,
`renderSettings`), a serializer (`save`), a paste handler (`onPaste`)
and static conversion functions.  DOM elements are modelled as a tree
carrying the attributes the code touches (tag name, class list,
contentEditable, innerHTML, dataset.placeholder, children); `classList`
follows DOMTokenList semantics (add is idempotent, remove filters).
Potentially-absent JavaScript values are `Option String`, and the
JavaScript `x || d` fallback/truthiness idiom on strings is `jsOrString`
(the empty string is falsy).  Methods that assign to `this` are embedded
as state-passing functions returning the updated `Alert`; `save`, which
dereferences a possibly-null `querySelector` result, returns `Except`.
-/

/-- The saved data record of an Alert block: `{ type, message }`. -/
structure AlertData where
  type : String
  message : String
deriving DecidableEq

/-- Externally supplied saved data at construction: both fields may be
absent (JavaScript `undefined`). -/
structure AlertDataIn where
  type : Option String
  message : Option String

/-- Tool configuration: `defaultType` and `messagePlaceholder` may be
absent. -/
structure AlertConfig where
  defaultType : Option String
  messagePlaceholder : Option String

/-- The host editor api style names used by the plugin
(`api.styles.settingsButton`, `api.styles.settingsButtonActive`). -/
structure ApiStyles where
  settingsButton : String
  settingsButtonActive : String

/-- JavaScript `v || d` on a possibly-absent string: `undefined` and the
empty string are falsy and yield the default `d`. -/
def jsOrString (v : Option String) (d : String) : String :=
  match v with
  | some s => if s = "" then d else s
  | none => d

/-- A DOM element, restricted to the attributes the plugin reads or
writes: tag name, class list, `contentEditable`, `innerHTML`,
`dataset.placeholder`, and child elements. -/
inductive Element where
  | mk : String → List String → Bool → String → Option String → List Element → Element

/-- Tag name of an element. -/
def Element.tagName : Element → String
  | .mk t _ _ _ _ _ => t

/-- Class list of an element. -/
def Element.classList : Element → List String
  | .mk _ c _ _ _ _ => c

/-- The `contentEditable` flag of an element. -/
def Element.contentEditable : Element → Bool
  | .mk _ _ ce _ _ _ => ce

/-- The `innerHTML` string of an element. -/
def Element.innerHTML : Element → String
  | .mk _ _ _ ih _ _ => ih

/-- The `dataset.placeholder` attribute of an element. -/
def Element.placeholder : Element → Option String
  | .mk _ _ _ _ p _ => p

/-- The child elements of an element. -/
def Element.children : Element → List Element
  | .mk _ _ _ _ _ ch => ch

/-- `DOMTokenList.add`: appends the token unless already present. -/
def classAdd (c : String) (l : List String) : List String :=
  if c ∈ l then l else l ++ [c]

/-- `DOMTokenList.remove`: removes every occurrence of the token. -/
def classRemove (c : String) (l : List String) : List String :=
  l.filter (fun x => x ≠ c)

/-- `classList.add(...names)`: add each name in order. -/
def classAddAll (l : List String) (names : List String) : List String :=
  names.foldl (fun acc n => classAdd n acc) l

mutual

/-- Depth-first search for the first element of a subtree (the root
included) whose class list contains `cls`. -/
def qselElem (cls : String) (e : Element) : Option Element :=
  match e with
  | .mk t c ce ih p ch =>
      if cls ∈ c then some (Element.mk t c ce ih p ch) else qselList cls ch

/-- Depth-first search across a forest for the first element whose class
list contains `cls`. -/
def qselList (cls : String) : List Element → Option Element
  | [] => none
  | e :: rest =>
      match qselElem cls e with
      | some r => some r
      | none => qselList cls rest

end

/-- `element.querySelector` restricted to a single-class selector:
first matching descendant in document order (the element itself is not
a candidate). -/
def Element.querySelectorClass (e : Element) (cls : String) : Option Element :=
  qselList cls e.children

/-- The Alert widget instance state: the fields the constructor
assigns to `this`. -/
structure Alert where
  api : ApiStyles
  defaultType : String
  messagePlaceholder : String
  data : AlertData
  container : Option Element
  readOnly : Bool

namespace Alert

/-- Static `Alert.DEFAULT_TYPE`. -/
def DEFAULT_TYPE : String := "info"

/-- Static `Alert.DEFAULT_MESSAGE_PLACEHOLDER`. -/
def DEFAULT_MESSAGE_PLACEHOLDER : String := "Type here..."

/-- Static `Alert.ALERT_TYPES`: the supported alert types. -/
def ALERT_TYPES : List String := ["info", "hinweis", "warnung"]

/-- The `CSS.wrapper` class name. -/
def cssWrapper : String := "meldung"

/-- The `CSS.wrapperForType` class name for a given type. -/
def cssWrapperForType (t : String) : String := "meldung_" ++ t

/-- The `CSS.message` class name. -/
def cssMessage : String := "cdx-alert__message"

/-- The constructor: computes the instance defaults with `||` fallback,
validates `data.type` against `ALERT_TYPES` (falling back to the
instance default), defaults `data.message` to the empty string, and
leaves `container` unset. -/
def construct (data : AlertDataIn) (config : AlertConfig)
    (api : ApiStyles) (readOnly : Bool) : Alert :=
  let defaultType := jsOrString config.defaultType DEFAULT_TYPE
  { api := api
    defaultType := defaultType
    messagePlaceholder :=
      jsOrString config.messagePlaceholder DEFAULT_MESSAGE_PLACEHOLDER
    data :=
      { type :=
          match data.type with
          | some t => if t ∈ ALERT_TYPES then t else defaultType
          | none => defaultType
        message := jsOrString data.message "" }
    container := none
    readOnly := readOnly }

/-- `render()`: builds the container div (wrapper class plus the class
for the current type) holding the message div (message class,
contentEditable unless read-only, `innerHTML` from the record, the
placeholder in `dataset`), stores the container on the instance and
returns it. -/
def render (a : Alert) : Alert × Element :=
  let messageEl : Element :=
    Element.mk "div" (classAddAll [] [cssMessage]) (!a.readOnly)
      a.data.message (some a.messagePlaceholder) []
  let container : Element :=
    Element.mk "div"
      (classAddAll [] [cssWrapper, cssWrapperForType a.data.type])
      false "" none [messageEl]
  ({ a with container := some container }, container)

/-- `save(alertElement)`: reads the message element found by
`querySelector` and returns `{ ...this.data, message }`; dereferencing
a missing message element is a thrown `TypeError`, embedded as
`Except.error`.  The instance state is returned unchanged: the body
assigns nothing to `this`. -/
def save (a : Alert) (alertElement : Element) :
    Except String AlertData × Alert :=
  (match alertElement.querySelectorClass cssMessage with
   | some messageEl =>
       Except.ok { a.data with message := messageEl.innerHTML }
   | none => Except.error "TypeError: messageEl is null", a)

/-- `onPaste(event)`: replaces the whole data record with the instance
default type and the pasted element innerHTML (`|| ''`). -/
def onPaste (a : Alert) (pastedInnerHTML : Option String) : Alert :=
  { a with
    data :=
      { type := a.defaultType
        message := jsOrString pastedInnerHTML "" } }

/-- The body of `_changeAlertType` applied to the container element:
for each supported type in order, the class for that type is removed
and, when it is the newly selected type, added back. -/
def restyleForType (newType : String) (e : Element) : Element :=
  match e with
  | .mk t cls ce ih p ch =>
      Element.mk t
        (ALERT_TYPES.foldl
          (fun acc ty =>
            let acc := classRemove (cssWrapperForType ty) acc
            if newType = ty then classAdd (cssWrapperForType ty) acc
            else acc)
          cls)
        ce ih p ch

/-- `_changeAlertType(newType)`: stores the new type in the data record
and restyles the stored container.  (The code dereferences
`this.container`, which the host guarantees was set by `render`;
an unset container is left unset.) -/
def _changeAlertType (a : Alert) (newType : String) : Alert :=
  { a with
    data := { a.data with type := newType }
    container := a.container.map (restyleForType newType) }

/-- One settings button as built inside `renderSettings`: classes
`[api.styles.settingsButton, CSS.wrapper, CSS.wrapperForType(type)]`,
`innerHTML` set to the letter A, and the active style class added when
the button type is the current type. -/
def settingsButtonFor (a : Alert) (ty : String) : Element :=
  let base :=
    classAddAll []
      [a.api.settingsButton, cssWrapper, cssWrapperForType ty]
  Element.mk "div"
    (if a.data.type = ty then classAdd a.api.settingsButtonActive base
     else base)
    false "A" none []

/-- `renderSettings()`: a plain div whose children are one settings
button per supported type, appended in `ALERT_TYPES` order. -/
def renderSettings (a : Alert) : Element :=
  Element.mk "div" [] false "" none (ALERT_TYPES.map (settingsButtonFor a))

/-- `conversionConfig.export`: an Alert record exports as its message. -/
def conversionExport (data : AlertData) : String := data.message

/-- `conversionConfig.import`: a string imports as a record with that
message and the static default type. -/
def conversionImport (s : String) : AlertData :=
  { type := DEFAULT_TYPE, message := s }

/-- The class list of the stored container, empty when no container has
been rendered yet. -/
def containerClassList (a : Alert) : List String :=
  (a.container.map Element.classList).getD []

end Alert

/-- A concrete set of api style names, used to instantiate theorems. -/
def sampleStyles : ApiStyles :=
  { settingsButton := "cdx-settings-button"
    settingsButtonActive := "cdx-settings-button--active" }

/-- A concrete constructed Alert instance, used to instantiate
theorems. -/
def sampleAlert : Alert :=
  Alert.construct ⟨some "hinweis", some "hello"⟩ ⟨none, none⟩ sampleStyles false

/-- A concrete element with a message-class descendant, used to
instantiate theorems about `save`. -/
def sampleElemWithMessage : Element :=
  Element.mk "div" [] false "" none
    [Element.mk "div" [Alert.cssMessage] false "pasted text" none []]

/-- Membership in a class list after `DOMTokenList.add`. -/
theorem mem_classAdd (x c : String) (l : List String) :
    x ∈ classAdd c l ↔ x ∈ l ∨ x = c := by
  by_cases hc : c ∈ l
  · simp only [classAdd, if_pos hc]
    exact ⟨Or.inl, fun h => h.elim id (fun hx => hx ▸ hc)⟩
  · simp [classAdd, if_neg hc]

/-- Membership in a class list after `DOMTokenList.remove`. -/
theorem mem_classRemove (x c : String) (l : List String) :
    x ∈ classRemove c l ↔ x ∈ l ∧ x ≠ c := by
  simp [classRemove, List.mem_filter]

/-- C2: for every Alert instance, rendering and then saving the
rendered element succeeds and returns exactly the instance's data
record; in particular the message content round-trips unchanged. -/
theorem render_save_roundtrip (a : Alert) :
    (a.save (a.render).2).1 = Except.ok a.data := rfl

/-- C8: conversion export after import is the identity on strings, and
the imported record's type is always the static global default type
`"info"`, independent of any instance configuration. -/
theorem conversion_roundtrip_and_static_default (s : String) :
    Alert.conversionExport (Alert.conversionImport s) = s ∧
    (Alert.conversionImport s).type = Alert.DEFAULT_TYPE ∧
    (Alert.conversionImport s).type = "info" :=
  ⟨rfl, rfl, rfl⟩

/-- C9: `save` does not mutate the instance: the post-state equals the
pre-state, and in particular the data record's type and message are
unchanged. -/
theorem save_preserves_instance (a : Alert) (e : Element) :
    (a.save e).2 = a ∧
    ((a.save e).2).data.type = a.data.type ∧
    ((a.save e).2).data.message = a.data.message :=
  ⟨rfl, rfl, rfl⟩

/-- C5: when the element has a descendant carrying the message class,
`save` returns the record whose message is that descendant's current
innerHTML and whose type is the instance's current type. -/
theorem save_reads_message_and_keeps_type (a : Alert) (e m : Element)
    (h : e.querySelectorClass Alert.cssMessage = some m) :
    (a.save e).1 =
      Except.ok { type := a.data.type, message := m.innerHTML } := by
  simp only [Alert.save, h]

/-- Witness for C5: `save` applied to a concrete instance and a
concrete element with a message descendant. -/
theorem save_reads_message_and_keeps_type_witness :
    sampleElemWithMessage.querySelectorClass Alert.cssMessage =
      some (Element.mk "div" [Alert.cssMessage] false "pasted text" none []) ∧
    (sampleAlert.save sampleElemWithMessage).1 =
      Except.ok { type := "hinweis", message := "pasted text" } :=
  ⟨rfl, save_reads_message_and_keeps_type sampleAlert sampleElemWithMessage
    (Element.mk "div" [Alert.cssMessage] false "pasted text" none []) rfl⟩

/-- C4 counterexample: `save` applied to an element with no
message-class descendant does raise (a thrown `TypeError`, embedded as
`Except.error`), so the operations are not exception-free for every
input. -/
theorem save_raises_without_message_descendant :
    ((Alert.construct ⟨none, none⟩ ⟨none, none⟩ sampleStyles false).save
      (Element.mk "div" [] false "" none [])).1 =
      Except.error "TypeError: messageEl is null" := rfl

/-- C4 amended: construction, `render`, `renderSettings` and `onPaste`
are total for every input, and `save` succeeds whenever the given
element has a message-class descendant (as every rendered element
does); out-of-range type or message values are only replaced by
defaults, never reported. -/
theorem save_ok_of_message_descendant (a : Alert) (e : Element)
    (h : ∃ m, e.querySelectorClass Alert.cssMessage = some m) :
    ∃ r, (a.save e).1 = Except.ok r := by
  obtain ⟨m, hm⟩ := h
  exact ⟨{ a.data with message := m.innerHTML }, by simp only [Alert.save, hm]⟩

/-- Witness for the amended C4: a concrete element with a message
descendant on which `save` succeeds. -/
theorem save_ok_of_message_descendant_witness :
    (∃ m, sampleElemWithMessage.querySelectorClass Alert.cssMessage = some m) ∧
    ∃ r, (sampleAlert.save sampleElemWithMessage).1 = Except.ok r :=
  ⟨⟨Element.mk "div" [Alert.cssMessage] false "pasted text" none [], rfl⟩,
    save_ok_of_message_descendant sampleAlert sampleElemWithMessage
      ⟨Element.mk "div" [Alert.cssMessage] false "pasted text" none [], rfl⟩⟩

/-- C10: the rendered message element is contentEditable exactly when
the readOnly flag passed at construction is false. -/
theorem render_contentEditable_iff_not_readOnly (din : AlertDataIn)
    (cfg : AlertConfig) (api : ApiStyles) (ro : Bool) :
    ∃ m, ((Alert.construct din cfg api ro).render).2.querySelectorClass
        Alert.cssMessage = some m ∧
      (m.contentEditable = true ↔ ro = false) := by
  refine ⟨_, rfl, ?_⟩
  cases ro <;> simp [Alert.construct, Element.contentEditable]

/-- The type stored by the constructor, written out. -/
theorem construct_data_type (din : AlertDataIn) (cfg : AlertConfig)
    (api : ApiStyles) (ro : Bool) :
    (Alert.construct din cfg api ro).data.type =
      match din.type with
      | some t =>
          if t ∈ Alert.ALERT_TYPES then t
          else jsOrString cfg.defaultType Alert.DEFAULT_TYPE
      | none => jsOrString cfg.defaultType Alert.DEFAULT_TYPE := rfl

/-- C1 counterexample: with `config.defaultType` set to a string outside
the supported list and no saved type, the constructed type is that
unvalidated string, so it is not a member of `ALERT_TYPES`. -/
theorem alert_type_invariant_cex :
    (Alert.construct ⟨none, none⟩ ⟨some "balloon", none⟩ sampleStyles
        false).data.type ∉ Alert.ALERT_TYPES := by decide

/-- C1 amended: the constructed type is a member of `ALERT_TYPES`
provided the effective default type (`config.defaultType` when supplied
and nonempty, otherwise the global default) is itself a member of the
list. -/
theorem alert_type_in_list_of_valid_default (din : AlertDataIn)
    (cfg : AlertConfig) (api : ApiStyles) (ro : Bool)
    (h : jsOrString cfg.defaultType Alert.DEFAULT_TYPE ∈ Alert.ALERT_TYPES) :
    (Alert.construct din cfg api ro).data.type ∈ Alert.ALERT_TYPES := by
  rw [construct_data_type]
  cases hdt : din.type with
  | none => exact h
  | some t =>
      by_cases ht : t ∈ Alert.ALERT_TYPES
      · simp [ht]
      · simpa [ht] using h

/-- Witness for the amended C1: a supported configured default and an
unsupported saved type still yield a supported constructed type. -/
theorem alert_type_in_list_of_valid_default_witness :
    jsOrString (some "warnung") Alert.DEFAULT_TYPE ∈ Alert.ALERT_TYPES ∧
    (Alert.construct ⟨some "bogus", none⟩ ⟨some "warnung", none⟩ sampleStyles
        false).data.type ∈ Alert.ALERT_TYPES :=
  ⟨by decide,
    alert_type_in_list_of_valid_default ⟨some "bogus", none⟩
      ⟨some "warnung", none⟩ sampleStyles false (by decide)⟩

/-- C3 counterexample: `config.defaultType` supplied as the empty string
is a given default, yet the constructed type is the global default
`"info"`, not that given string (the `||` fallback treats the empty
string as absent). -/
theorem constructor_empty_default_cex :
    (Alert.construct ⟨none, none⟩ ⟨some "", none⟩ sampleStyles
        false).data.type = "info" ∧
    (Alert.construct ⟨none, none⟩ ⟨some "", none⟩ sampleStyles
        false).data.type ≠ "" := by decide

/-- C3 amended: when the saved type is missing or unsupported, the
constructed type is `config.defaultType` when a nonempty one is given
and the global default `"info"` otherwise (no default given, or the
empty string given); a missing saved message becomes the empty
string. -/
theorem constructor_fallback (din : AlertDataIn) (cfg : AlertConfig)
    (api : ApiStyles) (ro : Bool) :
    ((∀ t, din.type = some t → t ∉ Alert.ALERT_TYPES) →
      ((cfg.defaultType = none ∨ cfg.defaultType = some "") →
        (Alert.construct din cfg api ro).data.type = "info") ∧
      (∀ d, cfg.defaultType = some d → d ≠ "" →
        (Alert.construct din cfg api ro).data.type = d)) ∧
    (din.message = none →
      (Alert.construct din cfg api ro).data.message = "") := by
  constructor
  · intro h
    have htype : (Alert.construct din cfg api ro).data.type =
        jsOrString cfg.defaultType Alert.DEFAULT_TYPE := by
      rw [construct_data_type]
      cases hdt : din.type with
      | none => rfl
      | some t => simp [h t hdt]
    refine ⟨?_, ?_⟩
    · rintro (hd | hd) <;> simp [htype, hd, jsOrString, Alert.DEFAULT_TYPE]
    · intro d hd hne
      simp [htype, hd, jsOrString, hne]
  · intro hm
    simp [Alert.construct, hm, jsOrString]

/-- Witness for the amended C3: no saved data and a nonempty configured
default give that default as type and the empty message. -/
theorem constructor_fallback_witness :
    (Alert.construct ⟨none, none⟩ ⟨some "hinweis", none⟩ sampleStyles
        false).data.type = "hinweis" ∧
    (Alert.construct ⟨none, none⟩ ⟨some "hinweis", none⟩ sampleStyles
        false).data.message = "" := by
  have h := constructor_fallback ⟨none, none⟩ ⟨some "hinweis", none⟩
    sampleStyles false
  exact ⟨(h.1 (by simp)).2 "hinweis" rfl (by decide), h.2 rfl⟩

/-- C6: `onPaste` replaces the whole data record: the new type is the
instance default type (which is `"info"` when no `defaultType` was
configured), and the new message is the pasted innerHTML, or the empty
string when that is missing or empty; the previous record does not
enter the result. -/
theorem onPaste_resets_state (din : AlertDataIn) (cfg : AlertConfig)
    (api : ApiStyles) (ro : Bool) (pd : Option String) :
    ((Alert.construct din cfg api ro).onPaste pd).data.type =
      (Alert.construct din cfg api ro).defaultType ∧
    (cfg.defaultType = none →
      ((Alert.construct din cfg api ro).onPaste pd).data.type = "info") ∧
    ((pd = none ∨ pd = some "") →
      ((Alert.construct din cfg api ro).onPaste pd).data.message = "") ∧
    (∀ s, pd = some s → s ≠ "" →
      ((Alert.construct din cfg api ro).onPaste pd).data.message = s) := by
  refine ⟨rfl, ?_, ?_, ?_⟩
  · intro h
    simp [Alert.onPaste, Alert.construct, jsOrString, h, Alert.DEFAULT_TYPE]
  · rintro (rfl | rfl) <;> simp [Alert.onPaste, jsOrString]
  · rintro s rfl hs
    simp [Alert.onPaste, jsOrString, hs]

/-- Witness for C6: pasting concrete content into a concretely
constructed instance resets type to the default and message to the
pasted content. -/
theorem onPaste_resets_state_witness :
    ((Alert.construct ⟨some "warnung", some "old"⟩ ⟨none, none⟩ sampleStyles
        false).onPaste (some "pasted")).data.type =
      (Alert.construct ⟨some "warnung", some "old"⟩ ⟨none, none⟩ sampleStyles
        false).defaultType ∧
    ((Alert.construct ⟨some "warnung", some "old"⟩ ⟨none, none⟩ sampleStyles
        false).onPaste (some "pasted")).data.type = "info" ∧
    ((Alert.construct ⟨some "warnung", some "old"⟩ ⟨none, none⟩ sampleStyles
        false).onPaste (some "pasted")).data.message = "pasted" := by
  have h := onPaste_resets_state ⟨some "warnung", some "old"⟩ ⟨none, none⟩
    sampleStyles false (some "pasted")
  exact ⟨h.1, h.2.1 rfl, h.2.2.2 "pasted" rfl (by decide)⟩

/-- C7: the settings panel has exactly one button per supported type in
list order, each carrying its type's class, with the active style
exactly on the current type's button (the host's style names being
distinct from the plugin's own class names); clicking the button for a
supported type `t` on a rendered instance stores `t` in the data record
and restyles the container so that its class list contains the type
class for `t` and for no other supported type. -/
theorem renderSettings_and_click (a : Alert) (t : String)
    (ht : t ∈ Alert.ALERT_TYPES)
    (hA1 : a.api.settingsButtonActive ≠ a.api.settingsButton)
    (hA2 : a.api.settingsButtonActive ≠ Alert.cssWrapper)
    (hA3 : ∀ ty ∈ Alert.ALERT_TYPES,
      a.api.settingsButtonActive ≠ Alert.cssWrapperForType ty) :
    (a.renderSettings).children.length = Alert.ALERT_TYPES.length ∧
    (∀ i, (hi : i < (a.renderSettings).children.length) →
      (hj : i < Alert.ALERT_TYPES.length) →
      (Alert.cssWrapperForType (Alert.ALERT_TYPES.get ⟨i, hj⟩) ∈
        ((a.renderSettings).children.get ⟨i, hi⟩).classList ∧
      (a.api.settingsButtonActive ∈
          ((a.renderSettings).children.get ⟨i, hi⟩).classList ↔
        a.data.type = Alert.ALERT_TYPES.get ⟨i, hj⟩))) ∧
    (((a.render).1._changeAlertType t).data.type = t ∧
      Alert.cssWrapperForType t ∈
        Alert.containerClassList ((a.render).1._changeAlertType t) ∧
      ∀ u ∈ Alert.ALERT_TYPES, u ≠ t →
        Alert.cssWrapperForType u ∉
          Alert.containerClassList ((a.render).1._changeAlertType t)) := by
  have w1 := hA3 "info" (by decide)
  have w2 := hA3 "hinweis" (by decide)
  have w3 := hA3 "warnung" (by decide)
  have dIH : Alert.cssWrapperForType "info" ≠ Alert.cssWrapperForType "hinweis" := by
    decide
  have dIW : Alert.cssWrapperForType "info" ≠ Alert.cssWrapperForType "warnung" := by
    decide
  have dHI : Alert.cssWrapperForType "hinweis" ≠ Alert.cssWrapperForType "info" := by
    decide
  have dHW : Alert.cssWrapperForType "hinweis" ≠ Alert.cssWrapperForType "warnung" := by
    decide
  have dWI : Alert.cssWrapperForType "warnung" ≠ Alert.cssWrapperForType "info" := by
    decide
  have dWH : Alert.cssWrapperForType "warnung" ≠ Alert.cssWrapperForType "hinweis" := by
    decide
  refine ⟨by simp [Alert.renderSettings, Alert.ALERT_TYPES, Element.children], ?_, ?_⟩
  · intro i hi hj
    have h3 : i < 3 := by simpa [Alert.ALERT_TYPES] using hj
    interval_cases i <;>
      refine ⟨?_, ?_⟩ <;>
      · simp only [Alert.renderSettings, Alert.ALERT_TYPES, Alert.settingsButtonFor,
          Element.classList, Element.children, classAddAll, List.foldl,
          List.map, List.get, List.length]
        split <;>
          simp_all [mem_classAdd, hA1, hA2, w1, w2, w3]
  · simp only [Alert.ALERT_TYPES, List.mem_cons, List.not_mem_nil, or_false] at ht
    rcases ht with rfl | rfl | rfl <;>
      refine ⟨rfl, ?_, ?_⟩ <;>
        simp [Alert.containerClassList, Alert._changeAlertType, Alert.render,
          Alert.restyleForType, Alert.ALERT_TYPES, Element.classList,
          Element.children, mem_classAdd, mem_classRemove, classAddAll,
          dIH, dIW, dHI, dHW, dWI, dWH]

/-- Witness for C7: the concrete instance with the concrete host style
names, clicking the warnung button: three settings buttons, and the
container carries exactly the warnung type class among the supported
type classes. -/
theorem renderSettings_and_click_witness :
    (sampleAlert.renderSettings).children.length = Alert.ALERT_TYPES.length ∧
    ((sampleAlert.render).1._changeAlertType "warnung").data.type = "warnung" ∧
    Alert.cssWrapperForType "warnung" ∈
      Alert.containerClassList ((sampleAlert.render).1._changeAlertType "warnung") ∧
    Alert.cssWrapperForType "info" ∉
      Alert.containerClassList ((sampleAlert.render).1._changeAlertType "warnung") ∧
    Alert.cssWrapperForType "hinweis" ∉
      Alert.containerClassList ((sampleAlert.render).1._changeAlertType "warnung") := by
  have h := renderSettings_and_click sampleAlert "warnung" (by decide)
    (by decide) (by decide) (by decide)
  obtain ⟨hlen, _, hty, hmem, hnot⟩ := h
  exact ⟨hlen, hty, hmem, hnot "info" (by decide) (by decide),
    hnot "hinweis" (by decide) (by decide)⟩
